import Mathlib

/-!
Verification development for the Meta-ads ingestion scripts
(`demo.py`, `fetch_meta_ads.py`, `meta_pipeline_fork.py`,
`meta_ads_monitoring.py`).

Shallow embedding conventions:
* Platform counters (`impressions`, `clicks`, `reach`, action values) are
  modelled as `Nat`: the Python code applies `int(...)` to the non-negative
  decimal count strings of the platform, so Python truthiness (`if impr`)
  coincides with `0 < impr`.
* Monetary / ratio quantities (`spend`, `frequency`, derived rates) are
  modelled as `Rat`; Python float division on these inputs follows the
  same formulas, and the claims under study concern the guard structure
  and the formulas, not float rounding.
* Dict lookups (`ads.get(...)`, `campaigns.get(...)`) are modelled as
  functions into `Option`.
* Network responses, upsert outcomes and exceptions are passed in as
  explicit parameters, so the control flow of each script becomes a
  pure function of those oracles.
-/

/-- Does `needle` match the front of `hs`? (helper for `strContains`). -/
def matchesAt : List Char → List Char → Bool
  | [], _ => true
  | _ :: _, [] => false
  | n :: ns, h :: hs => n == h && matchesAt ns hs

/-- Does `needle` occur contiguously anywhere in the haystack?
(helper for `strContains`). -/
def charsContain (needle : List Char) : List Char → Bool
  | [] => needle.isEmpty
  | h :: hs => matchesAt needle (h :: hs) || charsContain needle hs

/-- Python substring containment `needle in hay`. -/
def strContains (hay needle : String) : Bool :=
  charsContain needle.data hay.data

/-- Python `str.lower()` (the bodies compared against `"too many calls"`
are ASCII). -/
def lowerStr (s : String) : String :=
  String.mk (s.data.map Char.toLower)

/-- One element of the `actions` list of an insight: `{action_type, value}`.
The Python code reads `int(a["value"])`. -/
structure InsightAction where
  action_type : String
  value : Nat
deriving DecidableEq

/-- A raw insight row as returned by the insights endpoint (the fields the
scripts read: `date_start`, `ad_id`, `impressions`, `clicks`, `spend`,
`frequency`, `reach`, `actions`). -/
structure Insight where
  ad_id : String
  date_start : String
  impressions : Nat
  clicks : Nat
  spend : Rat
  frequency : Rat
  reach : Nat
  actions : List InsightAction
deriving DecidableEq

/-- An ad record as fetched by `fetch_ads` (`fields=id,name,adset_id,campaign_id`). -/
structure Ad where
  id : String
  name : String
  adset_id : String
  campaign_id : String
deriving DecidableEq

/-- A campaign record as normalised by `fetch_campaigns`
(`daily_budget` already divided by 1,000,000). -/
structure CampaignInfo where
  campaign_name : String
  daily_budget : Rat
deriving DecidableEq

/-- Supabase upsert with `on_conflict` on the columns extracted by `key`:
a row whose key equals the key of an already stored row replaces that row
wholesale (full replace, not merge); otherwise it is appended. -/
def upsertRow {α κ : Type} [DecidableEq κ] (key : α → κ) (store : List α) (r : α) : List α :=
  if store.any (fun s => decide (key s = key r)) then
    store.map (fun s => if key s = key r then r else s)
  else
    store ++ [r]

/-- Upsert a list of rows in order into a store. -/
def upsertRows {α κ : Type} [DecidableEq κ] (key : α → κ) (store : List α) (rows : List α) : List α :=
  rows.foldl (upsertRow key) store

namespace demo

/-- The row dict built in `demo.py process_account` (lines 178-200). -/
structure MetricRow where
  account_id : String
  business_name : String
  ad_id : String
  ad_name : Option String
  campaign_id : Option String
  campaign_name : Option String
  daily_budget : Option Rat
  impressions : Nat
  clicks : Nat
  ctr : Rat
  spend : Rat
  cpc : Rat
  cpm : Rat
  frequency : Rat
  leads : Nat
  purchases : Nat
  conversions : Nat
  cpa : Rat
  date : String
  flagged : Bool
  flagged_reason : Option String
deriving DecidableEq

/-- `demo.py` row assembly for one insight (`process_account`, lines 161-200):
derived metrics with zero guards, `leads` summed over actions whose type
equals `"lead"`, `purchases` over actions whose type contains `"purchase"`
as a substring, moderation fields defaulted. -/
def assembleRow (act business : String) (ads : String → Option Ad)
    (camps : String → Option CampaignInfo) (ins : Insight) : MetricRow :=
  let ad := ads ins.ad_id
  let campId := ad.map Ad.campaign_id
  let camp := campId.bind camps
  let impr := ins.impressions
  let clk := ins.clicks
  let spd := ins.spend
  let ctr : Rat := if impr ≠ 0 then (clk : Rat) / (impr : Rat) * 100 else 0
  let cpc : Rat := if clk ≠ 0 then spd / (clk : Rat) else 0
  let cpm : Rat := if impr ≠ 0 then spd / (impr : Rat) * 1000 else 0
  let leads := ((ins.actions.filter (fun a => a.action_type == "lead")).map InsightAction.value).sum
  let purch := ((ins.actions.filter (fun a => strContains a.action_type "purchase")).map InsightAction.value).sum
  let convs := leads + purch
  let cpa : Rat := if convs ≠ 0 then spd / (convs : Rat) else 0
  { account_id := act
    business_name := business
    ad_id := ins.ad_id
    ad_name := ad.map Ad.name
    campaign_id := campId
    campaign_name := camp.map CampaignInfo.campaign_name
    daily_budget := camp.map CampaignInfo.daily_budget
    impressions := impr
    clicks := clk
    ctr := ctr
    spend := spd
    cpc := cpc
    cpm := cpm
    frequency := ins.frequency
    leads := leads
    purchases := purch
    conversions := convs
    cpa := cpa
    date := ins.date_start
    flagged := false
    flagged_reason := none }

/-- `UNIQUE_KEYS = ["account_id", "ad_id", "date"]` (`demo.py` line 28):
the conflict key extracted from a row by the batch upsert. -/
def rowKey (r : MetricRow) : String × String × String :=
  (r.account_id, r.ad_id, r.date)

end demo

/-- `generate_deterministic_uuid` (`fetch_meta_ads.py` lines 17-20): the
Python code is `str(uuid.UUID(hashlib.md5(base.encode()).hexdigest()))`
with `base = fmt-string of ad_id, "-", date_str`.  The md5-plus-uuid
formatting step is abstracted as the parameter `digest`: every claim under
study depends only on the fact that the identifier is some fixed function
of the base string `ad_id ++ "-" ++ date_str`, hence of `(ad_id, date_str)`
alone. -/
def generate_deterministic_uuid (digest : String → String) (ad_id date_str : String) : String :=
  digest (ad_id ++ "-" ++ date_str)

namespace fetchMeta

/-- The creative enrichment fields extracted by `extract_creative_elements`
plus the resolved `image_url`; opaque to the claims under study, passed
into the assembler as fetched data. -/
structure CreativeElements where
  creative_id : Option String
  headline : Option String
  description : Option String
  cta_type : Option String
  thumbnail_url : Option String
  image_url : Option String
deriving DecidableEq

/-- The row dict built in `fetch_meta_ads.py process_and_save`
(lines 277-312). -/
structure MetricRow where
  id : String
  ad_id : String
  account_id : String
  business_name : String
  ad_name : String
  campaign_id : Option String
  campaign_name : Option String
  impressions : Nat
  clicks : Nat
  ctr : Rat
  spend : Rat
  daily_budget : Option Rat
  cpc : Rat
  cpm : Rat
  frequency : Rat
  reach : Nat
  conversions : Nat
  leads : Nat
  purchases : Nat
  cpa : Rat
  date : String
  flagged : Bool
  flagged_reason : Option String
  creative_id : Option String
  headline : Option String
  description : Option String
  cta_type : Option String
  thumbnail_url : Option String
  image_url : Option String
  updated_at : String
deriving DecidableEq

/-- `fetch_meta_ads.py` row assembly for one insight (`process_and_save`,
lines 222-312): same rate guards as `demo.py`, but `purchases` sums actions
whose type EQUALS `"purchase"` (line 273, not substring containment), the
row id is `generate_deterministic_uuid(ad_id, date_str)`, `ad_name`
defaults to `"Unknown"`, and `updated_at` is the wall-clock timestamp
(passed in as `now`). -/
def assembleRow (digest : String → String) (act business : String)
    (ads : String → Option Ad) (camps : String → Option CampaignInfo)
    (ce : CreativeElements) (now : String) (ins : Insight) : MetricRow :=
  let ad := ads ins.ad_id
  let campId := ad.map Ad.campaign_id
  let camp := campId.bind camps
  let impr := ins.impressions
  let clk := ins.clicks
  let spd := ins.spend
  let ctr : Rat := if impr ≠ 0 then (clk : Rat) / (impr : Rat) * 100 else 0
  let cpc : Rat := if clk ≠ 0 then spd / (clk : Rat) else 0
  let cpm : Rat := if impr ≠ 0 then spd / (impr : Rat) * 1000 else 0
  let leads := ((ins.actions.filter (fun a => a.action_type == "lead")).map InsightAction.value).sum
  let purch := ((ins.actions.filter (fun a => a.action_type == "purchase")).map InsightAction.value).sum
  let convs := leads + purch
  let cpa : Rat := if convs ≠ 0 then spd / (convs : Rat) else 0
  { id := generate_deterministic_uuid digest ins.ad_id ins.date_start
    ad_id := ins.ad_id
    account_id := act
    business_name := business
    ad_name := (ad.map Ad.name).getD "Unknown"
    campaign_id := campId
    campaign_name := camp.map CampaignInfo.campaign_name
    impressions := impr
    clicks := clk
    ctr := ctr
    spend := spd
    daily_budget := camp.map CampaignInfo.daily_budget
    cpc := cpc
    cpm := cpm
    frequency := ins.frequency
    reach := ins.reach
    conversions := convs
    leads := leads
    purchases := purch
    cpa := cpa
    date := ins.date_start
    flagged := false
    flagged_reason := none
    creative_id := ce.creative_id
    headline := ce.headline
    description := ce.description
    cta_type := ce.cta_type
    thumbnail_url := ce.thumbnail_url
    image_url := ce.image_url
    updated_at := now }

/-- The conflict key of the `fetch_meta_ads.py` upsert:
`on_conflict=["id"]` (lines 327-329 and 341-343). -/
def rowKey (r : MetricRow) : String :=
  r.id

end fetchMeta

namespace fork

/-- The row dict built in `meta_pipeline_fork.py process_and_save`
(lines 129-150).  Note: this variant stores NO `ad_id` field at all. -/
structure MetricRow where
  account_id : String
  business_name : String
  ad_name : String
  campaign_id : Option String
  campaign_name : Option String
  impressions : Nat
  clicks : Nat
  ctr : Rat
  spend : Rat
  daily_budget : Option Rat
  cpc : Rat
  cpm : Rat
  frequency : Rat
  conversions : Nat
  leads : Nat
  purchases : Nat
  cpa : Rat
  date : String
  flagged : Bool
  flagged_reason : Option String
deriving DecidableEq

/-- `meta_pipeline_fork.py` row assembly (lines 99-150): `leads` and
`purchases` both use EXACT equality on the action type. -/
def assembleRow (act business : String) (ads : String → Option Ad)
    (camps : String → Option CampaignInfo) (ins : Insight) : MetricRow :=
  let ad := ads ins.ad_id
  let campId := ad.map Ad.campaign_id
  let camp := campId.bind camps
  let impr := ins.impressions
  let clk := ins.clicks
  let spd := ins.spend
  let ctr : Rat := if impr ≠ 0 then (clk : Rat) / (impr : Rat) * 100 else 0
  let cpc : Rat := if clk ≠ 0 then spd / (clk : Rat) else 0
  let cpm : Rat := if impr ≠ 0 then spd / (impr : Rat) * 1000 else 0
  let leads := ((ins.actions.filter (fun a => a.action_type == "lead")).map InsightAction.value).sum
  let purch := ((ins.actions.filter (fun a => a.action_type == "purchase")).map InsightAction.value).sum
  let convs := leads + purch
  let cpa : Rat := if convs ≠ 0 then spd / (convs : Rat) else 0
  { account_id := act
    business_name := business
    ad_name := (ad.map Ad.name).getD "Unknown"
    campaign_id := campId
    campaign_name := camp.map CampaignInfo.campaign_name
    impressions := impr
    clicks := clk
    ctr := ctr
    spend := spd
    daily_budget := camp.map CampaignInfo.daily_budget
    cpc := cpc
    cpm := cpm
    frequency := ins.frequency
    conversions := convs
    leads := leads
    purchases := purch
    cpa := cpa
    date := ins.date_start
    flagged := false
    flagged_reason := none }

/-- The conflict key of the `meta_pipeline_fork.py` upsert:
`on_conflict=["account_id", "date"]` (lines 152-155). -/
def rowKey (r : MetricRow) : String × String :=
  (r.account_id, r.date)

end fork

namespace monitoring

/-- The row dict built in `meta_ads_monitoring.py process_and_save`
(lines 294-314).  This variant stores a single `conversions` total and no
separate `leads` / `purchases` fields. -/
structure MetricRow where
  account_id : String
  business_name : String
  ad_id : String
  ad_name : String
  campaign_id : Option String
  campaign_name : Option String
  impressions : Nat
  clicks : Nat
  ctr : Rat
  spend : Rat
  daily_budget : Option Rat
  cpc : Rat
  cpm : Rat
  frequency : Rat
  conversions : Nat
  cpa : Rat
  date : String
  flagged : Bool
  flagged_reason : Option String
deriving DecidableEq

/-- `meta_ads_monitoring.py` row assembly (lines 269-314): `conversions`
is one sum over actions whose type is a member of
`["offsite_conversion", "purchase", "lead"]` (lines 287-291). -/
def assembleRow (act business : String) (ads : String → Option Ad)
    (camps : String → Option CampaignInfo) (ins : Insight) : MetricRow :=
  let ad := ads ins.ad_id
  let campId := ad.map Ad.campaign_id
  let camp := campId.bind camps
  let impr := ins.impressions
  let clk := ins.clicks
  let spd := ins.spend
  let ctr : Rat := if impr ≠ 0 then (clk : Rat) / (impr : Rat) * 100 else 0
  let cpc : Rat := if clk ≠ 0 then spd / (clk : Rat) else 0
  let cpm : Rat := if impr ≠ 0 then spd / (impr : Rat) * 1000 else 0
  let convs := ((ins.actions.filter
      (fun a => a.action_type == "offsite_conversion" || a.action_type == "purchase" ||
        a.action_type == "lead")).map InsightAction.value).sum
  let cpa : Rat := if convs ≠ 0 then spd / (convs : Rat) else 0
  { account_id := act
    business_name := business
    ad_id := ins.ad_id
    ad_name := (ad.map Ad.name).getD "Unknown"
    campaign_id := campId
    campaign_name := camp.map CampaignInfo.campaign_name
    impressions := impr
    clicks := clk
    ctr := ctr
    spend := spd
    daily_budget := camp.map CampaignInfo.daily_budget
    cpc := cpc
    cpm := cpm
    frequency := ins.frequency
    conversions := convs
    cpa := cpa
    date := ins.date_start
    flagged := false
    flagged_reason := none }

/-- The conflict key of the `meta_ads_monitoring.py` upsert:
`on_conflict=["account_id", "ad_id", "date"]` (lines 316-318). -/
def rowKey (r : MetricRow) : String × String × String :=
  (r.account_id, r.ad_id, r.date)

end monitoring

/-- The outcome of one HTTP GET against the upstream API, as the scripts
observe it: `ok` is the `status == 200` branch (with the JSON text),
`httpErr` any non-200 status with the response body text, `transportErr`
an `aiohttp.ClientError`-style failure before a status is available. -/
inductive HttpResp
  | ok (body : String)
  | httpErr (status : Nat) (body : String)
  | transportErr (msg : String)
deriving DecidableEq

namespace demo

/-- Loop body of `demo.py fetch_url` (lines 81-96): `for attempt in
range(tries)`, return the JSON on status 200, otherwise (any non-200
status, or a ClientError) set a backoff delay and continue with the next
attempt.  `resp n` is the outcome of the `n`-th request; the fuel is the
number of loop iterations left. -/
def fetchGo (resp : Nat → HttpResp) : Nat → Nat → Option String
  | 0, _ => none
  | fuel + 1, attempt =>
      match resp attempt with
      | .ok body => some body
      | .httpErr _ _ => fetchGo resp fuel (attempt + 1)
      | .transportErr _ => fetchGo resp fuel (attempt + 1)

/-- `demo.py fetch_url`: after the loop is exhausted it raises
`RuntimeError(fmt-string: Meta request failed after tries attempts)`. -/
def fetch_url (resp : Nat → HttpResp) (tries : Nat) : Except String String :=
  match fetchGo resp tries 0 with
  | some body => .ok body
  | none => .error ("Meta request failed after " ++ toString tries ++ " attempts")

/-- Number of HTTP requests `demo.py fetch_url` issues. -/
def attemptsGo (resp : Nat → HttpResp) : Nat → Nat → Nat
  | 0, _ => 0
  | fuel + 1, attempt =>
      match resp attempt with
      | .ok _ => 1
      | .httpErr _ _ => 1 + attemptsGo resp fuel (attempt + 1)
      | .transportErr _ => 1 + attemptsGo resp fuel (attempt + 1)

/-- Number of HTTP requests `demo.py fetch_url` issues, starting at
attempt 0 with `tries` iterations allowed. -/
def attemptsMade (resp : Nat → HttpResp) (tries : Nat) : Nat :=
  attemptsGo resp tries 0

end demo

namespace fetchMeta

/-- Loop body of `fetch_meta_ads.py fetch_url` (lines 41-61): on a non-200
status other than rate limiting it executes `raise Exception(...)` INSIDE
its own `try`, and the raise is caught by the functions own
`except Exception` handler, which increments `retries` and loops; the
rate-limit branch (`status == 400 and "too many calls" in text.lower()`)
increments `retries` directly; a transport error is likewise caught.  So
every failure path consumes one retry and the loop continues. -/
def fetchGo (resp : Nat → HttpResp) : Nat → Nat → Option String
  | 0, _ => none
  | fuel + 1, attempt =>
      match resp attempt with
      | .ok body => some body
      | .httpErr status text =>
          if status == 400 && strContains (lowerStr text) "too many calls" then
            fetchGo resp fuel (attempt + 1)
          else
            fetchGo resp fuel (attempt + 1)
      | .transportErr _ => fetchGo resp fuel (attempt + 1)

/-- `fetch_meta_ads.py fetch_url`: after `max_retries` failures it raises
`Exception("Max retries reached for Meta API call.")`. -/
def fetch_url (resp : Nat → HttpResp) (max_retries : Nat) : Except String String :=
  match fetchGo resp max_retries 0 with
  | some body => .ok body
  | none => .error "Max retries reached for Meta API call."

/-- Number of HTTP requests `fetch_meta_ads.py fetch_url` issues. -/
def attemptsGo (resp : Nat → HttpResp) : Nat → Nat → Nat
  | 0, _ => 0
  | fuel + 1, attempt =>
      match resp attempt with
      | .ok _ => 1
      | .httpErr _ _ => 1 + attemptsGo resp fuel (attempt + 1)
      | .transportErr _ => 1 + attemptsGo resp fuel (attempt + 1)

/-- Number of HTTP requests `fetch_meta_ads.py fetch_url` issues in total. -/
def attemptsMade (resp : Nat → HttpResp) (max_retries : Nat) : Nat :=
  attemptsGo resp max_retries 0

end fetchMeta

namespace fork

/-- The classified failure of `meta_pipeline_fork.py fetch_url`. -/
inductive FetchErr
  | httpFailure (status : Nat) (body : String)
  | transport (msg : String)
  | maxRetries
deriving DecidableEq

/-- Loop body of `meta_pipeline_fork.py fetch_url` (lines 33-47): there is
NO `try` around the request, so only the branch
`status == 400 and "too many calls" in text.lower()` retries; every other
non-200 status raises `Exception(fmt-string: Error status, text)`
immediately, and a transport error propagates uncaught. -/
def fetchGo (resp : Nat → HttpResp) : Nat → Nat → Except FetchErr String
  | 0, _ => .error .maxRetries
  | fuel + 1, attempt =>
      match resp attempt with
      | .ok body => .ok body
      | .httpErr status text =>
          if status == 400 && strContains (lowerStr text) "too many calls" then
            fetchGo resp fuel (attempt + 1)
          else
            .error (.httpFailure status text)
      | .transportErr m => .error (.transport m)

/-- `meta_pipeline_fork.py fetch_url` with `max_retries` loop iterations;
exhaustion raises `Exception("Max retries reached.")`. -/
def fetch_url (resp : Nat → HttpResp) (max_retries : Nat) : Except FetchErr String :=
  fetchGo resp max_retries 0

/-- Number of HTTP requests `meta_pipeline_fork.py fetch_url` issues. -/
def attemptsGo (resp : Nat → HttpResp) : Nat → Nat → Nat
  | 0, _ => 0
  | fuel + 1, attempt =>
      match resp attempt with
      | .ok _ => 1
      | .httpErr status text =>
          if status == 400 && strContains (lowerStr text) "too many calls" then
            1 + attemptsGo resp fuel (attempt + 1)
          else
            1
      | .transportErr _ => 1

/-- Number of HTTP requests `meta_pipeline_fork.py fetch_url` issues in
total. -/
def attemptsMade (resp : Nat → HttpResp) (max_retries : Nat) : Nat :=
  attemptsGo resp max_retries 0

end fork

/-- One page of a paginated endpoint response: its `data` array and
whether `paging.next` carries a further cursor. -/
structure Page (α : Type) where
  data : List α
  hasNext : Bool
deriving DecidableEq

/-- The pagination loop shared by `fetch_ads` / `fetch_insights`
(`demo.py` lines 98-106, `fetch_meta_ads.py` lines 103-121):
`while url: data = fetch(url); items.extend(data["data"]);
url = data["paging"]["next"]`.  The argument is the sequence of pages the
server would serve along the cursor chain; the loop stops at the first
page without a next cursor. -/
def fetch_all {α : Type} : List (Page α) → List α
  | [] => []
  | p :: rest => p.data ++ (if p.hasNext then fetch_all rest else [])

/-- How many pages the pagination loop actually requests. -/
def pagesFetched {α : Type} : List (Page α) → Nat
  | [] => 0
  | p :: rest => 1 + (if p.hasNext then pagesFetched rest else 0)

/-- A well-formed cursor chain: every page announces a next cursor except
the last one. -/
def goodChain {α : Type} : List (Page α) → Bool
  | [] => true
  | [p] => !p.hasNext
  | p :: q :: rest => p.hasNext && goodChain (q :: rest)

namespace demo

/-- Classification of a `SupabaseException` raised by the whole-batch
upsert in `demo.py` (lines 217-222): `structural` is the case where
`explain_supabase_error` reports code `42P10` (ON CONFLICT columns without
a UNIQUE index), on which the script runs `sys.exit(1)`; `dataError` is
any other `SupabaseException`. -/
inductive BatchFailure
  | structural
  | dataError
deriving DecidableEq

/-- The observable result of processing one batch in `demo.py`. -/
structure BatchOutcome where
  runAborted : Bool
  persisted : Nat
  deadLettered : List MetricRow
  deadLetterLabel : Option String
deriving DecidableEq

/-- The dead-letter file name written by `log_bad_rows` (`demo.py` lines
59-66): `bad_rows_{label}_{ts}.json` with a UTC timestamp `ts`. -/
def logFileName (label ts : String) : String :=
  "bad_rows_" ++ label ++ "_" ++ ts ++ ".json"

/-- One iteration of the batch loop of `demo.py process_account`
(lines 212-237).  `batchFailure` says whether the whole-batch upsert
raises and how the error classifies; `rowFails` says which rows raise
when upserted individually in the fallback; `batchIndex` is
`i // BATCH_SIZE`.  On a structural failure the script exits the whole
run; on a data error it retries row by row, collects the still-failing
rows into `bad`, and if `bad` is non-empty calls
`log_bad_rows(bad, fmt-string: business, "_batch_", batchIndex + 1)`. -/
def processBatch (batchFailure : Option BatchFailure) (rowFails : MetricRow → Bool)
    (business : String) (batchIndex : Nat) (batch : List MetricRow) : BatchOutcome :=
  match batchFailure with
  | none =>
      { runAborted := false, persisted := batch.length,
        deadLettered := [], deadLetterLabel := none }
  | some .structural =>
      { runAborted := true, persisted := 0,
        deadLettered := [], deadLetterLabel := none }
  | some .dataError =>
      let bad := batch.filter rowFails
      { runAborted := false
        persisted := (batch.filter (fun r => !(rowFails r))).length
        deadLettered := bad
        deadLetterLabel :=
          if bad.isEmpty then none
          else some (business ++ "_batch_" ++ toString (batchIndex + 1)) }

end demo

namespace fetchMeta

/-- A batch upsert error in `fetch_meta_ads.py` (lines 331-345): the
fallback fires only when the exception object has a `code` attribute equal
to `"PGRST100"`; `code = none` models an exception without that
attribute. -/
structure BatchErr where
  code : Option String
deriving DecidableEq

/-- The observable result of processing one batch in
`fetch_meta_ads.py`. -/
structure BatchOutcome where
  persisted : Nat
  deadLettered : List MetricRow
deriving DecidableEq

/-- One iteration of the batch loop of `fetch_meta_ads.py
process_and_save` (lines 324-345): on a batch error with code `PGRST100`
it retries row by row, but rows that still fail are only PRINTED
(line 345) — nothing is ever written to a dead-letter file; on any other
batch error it just prints and moves on, persisting nothing from the
batch. -/
def processBatch (batchErr : Option BatchErr) (rowFails : MetricRow → Bool)
    (batch : List MetricRow) : BatchOutcome :=
  match batchErr with
  | none => { persisted := batch.length, deadLettered := [] }
  | some e =>
      if e.code == some "PGRST100" then
        { persisted := (batch.filter (fun r => !(rowFails r))).length,
          deadLettered := [] }
      else
        { persisted := 0, deadLettered := [] }

end fetchMeta

/-- Terminal status of one account in a run. -/
inductive AcctStatus
  | done
  | skipped
deriving DecidableEq

namespace monitoring

/-- The account loop of `meta_ads_monitoring.py main` (lines 330-336) and
identically `fetch_meta_ads.py main` (lines 365-371): each
`process_and_save` call sits inside `try: ... except Exception:`, so an
account whose processing raises is skipped and the loop continues
unconditionally.  `raises a` says whether processing account `a` raises. -/
def runAccounts (raises : String × String → Bool) (accounts : List (String × String)) :
    List ((String × String) × AcctStatus) :=
  accounts.map (fun a => (a, if raises a then AcctStatus.skipped else AcctStatus.done))

end monitoring

namespace demo

/-- How processing one account in `demo.py process_account` can end, seen
from `main`: `completed` and `fetchFailed` return normally (the API-fetch
`try/except` at lines 148-158 catches fetch failures and returns early);
`structuralExit` is the `sys.exit(1)` on a 42P10 batch error (line 222);
`uncaughtError` is any exception that escapes `process_account` (for
example a non-`SupabaseException` raised by an upsert call, which the
`except SupabaseException` handlers at lines 217 and 229 do not catch). -/
inductive AcctOutcome
  | completed
  | fetchFailed
  | structuralExit
  | uncaughtError
deriving DecidableEq

/-- Result of a whole `demo.py` run. -/
inductive RunResult
  | finished (statuses : List ((String × String) × AcctStatus))
  | aborted (processed : List ((String × String) × AcctStatus)) (failedOn : String × String)
deriving DecidableEq

/-- The account loop of `demo.py main` (lines 263-269): there is NO
`try/except` around `process_account`, so a `sys.exit(1)` or an uncaught
exception ends the whole run on the spot and the remaining accounts are
never processed. -/
def runAccounts (outcome : String × String → AcctOutcome) :
    List (String × String) → RunResult
  | [] => .finished []
  | a :: rest =>
      match outcome a with
      | .completed =>
          match runAccounts outcome rest with
          | .finished s => .finished ((a, AcctStatus.done) :: s)
          | .aborted p f => .aborted ((a, AcctStatus.done) :: p) f
      | .fetchFailed =>
          match runAccounts outcome rest with
          | .finished s => .finished ((a, AcctStatus.skipped) :: s)
          | .aborted p f => .aborted ((a, AcctStatus.skipped) :: p) f
      | .structuralExit => .aborted [] a
      | .uncaughtError => .aborted [] a

end demo

/-- A `demo.py` row with a chosen ad id and quiet metrics (C4 inputs). -/
def c4Row (tag : String) : demo.MetricRow :=
  demo.assembleRow "ACC" "Biz" (fun _ => none) (fun _ => none)
    { ad_id := tag, date_start := "2025-03-03", impressions := 0, clicks := 0,
      spend := 0, frequency := 0, reach := 0, actions := [] }

/-- A 100-row batch: 97 valid rows and 3 rows that fail individually. -/
def c4Batch : List demo.MetricRow :=
  List.replicate 97 (c4Row "OK") ++ List.replicate 3 (c4Row "BAD")

/-- The three `"BAD"` rows are the ones whose individual upsert raises. -/
def c4RowFails (r : demo.MetricRow) : Bool :=
  r.ad_id == "BAD"

/-- A `fetch_meta_ads.py` row with a chosen ad id (C4 inputs). -/
def c4fRow (tag : String) : fetchMeta.MetricRow :=
  fetchMeta.assembleRow (fun s => s) "ACC" "Biz" (fun _ => none) (fun _ => none)
    { creative_id := none, headline := none, description := none, cta_type := none,
      thumbnail_url := none, image_url := none } "t0"
    { ad_id := tag, date_start := "2025-03-03", impressions := 0, clicks := 0,
      spend := 0, frequency := 0, reach := 0, actions := [] }

/-- A 100-row `fetch_meta_ads.py` batch: 97 valid rows, 3 invalid ones. -/
def c4fBatch : List fetchMeta.MetricRow :=
  List.replicate 97 (c4fRow "OK") ++ List.replicate 3 (c4fRow "BAD")

/-- The three `"BAD"` rows fail individually. -/
def c4fRowFails (r : fetchMeta.MetricRow) : Bool :=
  r.ad_id == "BAD"

/-- Spec formula (§4.3): `leads = sum(value for action in actions if
action.type == "lead")`. -/
def spec_leads (acts : List InsightAction) : Nat :=
  ((acts.filter (fun a => a.action_type == "lead")).map InsightAction.value).sum

/-- Spec formula (§4.3): `purchases = sum(value for action in actions if
action.type contains "purchase")` — substring containment, as the claim
states it. -/
def spec_purchases_substring (acts : List InsightAction) : Nat :=
  ((acts.filter (fun a => strContains a.action_type "purchase")).map InsightAction.value).sum

/-- The purchases sum actually computed by `fetch_meta_ads.py` (line 273)
and `meta_pipeline_fork.py` (lines 121-125): EXACT equality with
`"purchase"`. -/
def purchases_exact (acts : List InsightAction) : Nat :=
  ((acts.filter (fun a => a.action_type == "purchase")).map InsightAction.value).sum

/-- The conversions sum actually computed by `meta_ads_monitoring.py`
(lines 287-291): one sum over actions whose type is in
`["offsite_conversion", "purchase", "lead"]`. -/
def conversions_membership (acts : List InsightAction) : Nat :=
  ((acts.filter (fun a =>
      a.action_type == "offsite_conversion" || a.action_type == "purchase" ||
        a.action_type == "lead")).map InsightAction.value).sum

/-- C2: for every insight row (shown for the two cited variants,
`demo.py process_account` and `fetch_meta_ads.py process_and_save`),
the derived rates equal the documented formulas with zero-returning
guards: `ctr = clicks / impressions * 100` when `impressions > 0` else 0,
`cpc = spend / clicks` when `clicks > 0` else 0,
`cpm = spend / impressions * 1000` when `impressions > 0` else 0,
`cpa = spend / conversions` when `conversions > 0` else 0.  Division in
the embedding is the total `Rat` division, and every zero-denominator
case is sent to the `0` branch of the guard, so no division raises. -/
theorem C2_rate_metric_formulas
    (act business : String) (ads : String → Option Ad)
    (camps : String → Option CampaignInfo) (ce : fetchMeta.CreativeElements)
    (digest : String → String) (now : String) (ins : Insight) :
    ((demo.assembleRow act business ads camps ins).ctr =
        (if 0 < ins.impressions then (ins.clicks : Rat) / (ins.impressions : Rat) * 100 else 0))
    ∧ ((demo.assembleRow act business ads camps ins).cpc =
        (if 0 < ins.clicks then ins.spend / (ins.clicks : Rat) else 0))
    ∧ ((demo.assembleRow act business ads camps ins).cpm =
        (if 0 < ins.impressions then ins.spend / (ins.impressions : Rat) * 1000 else 0))
    ∧ ((demo.assembleRow act business ads camps ins).cpa =
        (if 0 < (demo.assembleRow act business ads camps ins).conversions
         then ins.spend / ((demo.assembleRow act business ads camps ins).conversions : Rat)
         else 0))
    ∧ ((fetchMeta.assembleRow digest act business ads camps ce now ins).ctr =
        (if 0 < ins.impressions then (ins.clicks : Rat) / (ins.impressions : Rat) * 100 else 0))
    ∧ ((fetchMeta.assembleRow digest act business ads camps ce now ins).cpc =
        (if 0 < ins.clicks then ins.spend / (ins.clicks : Rat) else 0))
    ∧ ((fetchMeta.assembleRow digest act business ads camps ce now ins).cpm =
        (if 0 < ins.impressions then ins.spend / (ins.impressions : Rat) * 1000 else 0))
    ∧ ((fetchMeta.assembleRow digest act business ads camps ce now ins).cpa =
        (if 0 < (fetchMeta.assembleRow digest act business ads camps ce now ins).conversions
         then ins.spend / ((fetchMeta.assembleRow digest act business ads camps ce now ins).conversions : Rat)
         else 0)) := by
  refine ⟨?_, ?_, ?_, ?_, ?_, ?_, ?_, ?_⟩ <;>
    simp [demo.assembleRow, fetchMeta.assembleRow, Nat.pos_iff_ne_zero] <;>
    exact if_congr (by tauto) rfl rfl

/-- C3 counterexample: the claim says `purchases` sums actions whose type
CONTAINS `"purchase"` as a substring, for every insight row.  In
`fetch_meta_ads.py` (line 273) the comparison is exact equality: for the
single action `{action_type: "omni_purchase", value: 3}` the assembled
row has `purchases = 0`, while the claimed substring formula gives 3. -/
theorem C3_counterexample_substring_vs_exact :
    (fetchMeta.assembleRow (fun s => s) "A1" "B1" (fun _ => none) (fun _ => none)
        { creative_id := none, headline := none, description := none, cta_type := none,
          thumbnail_url := none, image_url := none } "t0"
        { ad_id := "AD", date_start := "2025-01-01", impressions := 0, clicks := 0,
          spend := 0, frequency := 0, reach := 0,
          actions := [{ action_type := "omni_purchase", value := 3 }] }).purchases = 0
    ∧ spec_purchases_substring [{ action_type := "omni_purchase", value := 3 }] = 3
    ∧ (0 : Nat) ≠ 3 := by
  refine ⟨by decide, by decide, by decide⟩

/-- C3 amended: `leads` sums actions whose type is exactly `"lead"` and
`conversions = leads + purchases` in `demo.py` and `fetch_meta_ads.py`;
but only `demo.py` (line 174) computes `purchases` by substring
containment of `"purchase"` — `fetch_meta_ads.py` (line 273) uses exact
equality with `"purchase"`, and `meta_ads_monitoring.py` (lines 287-291)
keeps no separate leads/purchases at all, computing `conversions` as one
sum over actions whose type is in
`["offsite_conversion", "purchase", "lead"]`. -/
theorem C3_amended_action_sums
    (act business : String) (ads : String → Option Ad)
    (camps : String → Option CampaignInfo) (ce : fetchMeta.CreativeElements)
    (digest : String → String) (now : String) (ins : Insight) :
    ((demo.assembleRow act business ads camps ins).leads = spec_leads ins.actions)
    ∧ ((demo.assembleRow act business ads camps ins).purchases =
        spec_purchases_substring ins.actions)
    ∧ ((demo.assembleRow act business ads camps ins).conversions =
        spec_leads ins.actions + spec_purchases_substring ins.actions)
    ∧ ((fetchMeta.assembleRow digest act business ads camps ce now ins).leads =
        spec_leads ins.actions)
    ∧ ((fetchMeta.assembleRow digest act business ads camps ce now ins).purchases =
        purchases_exact ins.actions)
    ∧ ((fetchMeta.assembleRow digest act business ads camps ce now ins).conversions =
        spec_leads ins.actions + purchases_exact ins.actions)
    ∧ ((monitoring.assembleRow act business ads camps ins).conversions =
        conversions_membership ins.actions) := by
  refine ⟨rfl, rfl, rfl, rfl, rfl, rfl, rfl⟩

/-- C10: every assembled row, in all four script variants, carries the
reset moderation defaults `flagged = False` and `flagged_reason = None`,
unconditionally on every run. -/
theorem C10_moderation_defaults
    (act business : String) (ads : String → Option Ad)
    (camps : String → Option CampaignInfo) (ce : fetchMeta.CreativeElements)
    (digest : String → String) (now : String) (ins : Insight) :
    ((demo.assembleRow act business ads camps ins).flagged = false
      ∧ (demo.assembleRow act business ads camps ins).flagged_reason = none)
    ∧ ((fetchMeta.assembleRow digest act business ads camps ce now ins).flagged = false
      ∧ (fetchMeta.assembleRow digest act business ads camps ce now ins).flagged_reason = none)
    ∧ ((fork.assembleRow act business ads camps ins).flagged = false
      ∧ (fork.assembleRow act business ads camps ins).flagged_reason = none)
    ∧ ((monitoring.assembleRow act business ads camps ins).flagged = false
      ∧ (monitoring.assembleRow act business ads camps ins).flagged_reason = none) := by
  refine ⟨⟨rfl, rfl⟩, ⟨rfl, rfl⟩, ⟨rfl, rfl⟩, ⟨rfl, rfl⟩⟩

/-- Upserting into a one-row store replaces the stored row exactly when
the conflict keys agree. -/
theorem upsertRow_singleton {α κ : Type} [DecidableEq κ] (key : α → κ) (r1 r2 : α) :
    upsertRow key [r1] r2 = if key r1 = key r2 then [r2] else [r1, r2] := by
  by_cases h : key r1 = key r2 <;> simp [upsertRow, h]

/-- Upserting two rows into an empty store: the second conflicts with the
first exactly when their keys agree, and then fully replaces it. -/
theorem upsertRows_pair {α κ : Type} [DecidableEq κ] (key : α → κ) (r1 r2 : α) :
    upsertRows key [] [r1, r2] = if key r1 = key r2 then [r2] else [r1, r2] := by
  have h0 : upsertRow key [] r1 = [r1] := by simp [upsertRow]
  simp [upsertRows, h0, upsertRow_singleton]

/-- The id of a `fetch_meta_ads.py` row is the digest of
`ad_id ++ "-" ++ date_start`, regardless of every other input. -/
theorem fetchMeta_assembleRow_id (digest : String → String) (act business : String)
    (ads : String → Option Ad) (camps : String → Option CampaignInfo)
    (ce : fetchMeta.CreativeElements) (now : String) (ins : Insight) :
    (fetchMeta.assembleRow digest act business ads camps ce now ins).id =
      generate_deterministic_uuid digest ins.ad_id ins.date_start := rfl

/-- C1 counterexample: the claim says two rows conflict ONLY if they agree
on `account_id`, `ad_id` and `date`.  `meta_pipeline_fork.py` upserts with
`on_conflict=["account_id", "date"]` (lines 152-155): two rows assembled
from insights with DIFFERENT ad ids (`"AD1"` vs `"AD2"`) but the same
account and date are treated as the same record, and the later one
overwrites the earlier one entirely. -/
theorem C1_counterexample_fork_key :
    (let ins1 : Insight :=
       { ad_id := "AD1", date_start := "2025-01-01", impressions := 0,
         clicks := 0, spend := 5, frequency := 0, reach := 0, actions := [] }
     let ins2 : Insight :=
       { ad_id := "AD2", date_start := "2025-01-01", impressions := 0,
         clicks := 0, spend := 7, frequency := 0, reach := 0, actions := [] }
     let r1 := fork.assembleRow "ACC" "Biz" (fun _ => none) (fun _ => none) ins1
     let r2 := fork.assembleRow "ACC" "Biz" (fun _ => none) (fun _ => none) ins2
     ins1.ad_id ≠ ins2.ad_id ∧ r1 ≠ r2 ∧
       upsertRows fork.rowKey [] [r1, r2] = [r2]) := by
  exact ⟨by decide, by decide, by decide⟩

/-- C1 amended: only `demo.py` (`UNIQUE_KEYS`, upserts at lines 215/228)
and `meta_ads_monitoring.py` (lines 316-318) key their upserts on
`(account_id, ad_id, date)`, where two rows conflict — and the later
fully overwrites the earlier — exactly when all three agree.
`fetch_meta_ads.py` (lines 327-329) keys on the deterministic id derived
from `(ad_id, date)` alone, so rows that agree on ad id and date conflict
even across different accounts; `meta_pipeline_fork.py` (lines 152-155)
keys on `(account_id, date)`, so rows that agree on account and date
conflict even across different ads. -/
theorem C1_amended_conflict_keys :
    (∀ r1 r2 : demo.MetricRow,
        upsertRows demo.rowKey [] [r1, r2] =
          if r1.account_id = r2.account_id ∧ r1.ad_id = r2.ad_id ∧ r1.date = r2.date
          then [r2] else [r1, r2])
    ∧ (∀ r1 r2 : monitoring.MetricRow,
        upsertRows monitoring.rowKey [] [r1, r2] =
          if r1.account_id = r2.account_id ∧ r1.ad_id = r2.ad_id ∧ r1.date = r2.date
          then [r2] else [r1, r2])
    ∧ (∀ (digest : String → String) (a1 a2 b1 b2 : String)
         (ads1 ads2 : String → Option Ad) (camps1 camps2 : String → Option CampaignInfo)
         (ce1 ce2 : fetchMeta.CreativeElements) (now1 now2 : String) (ins1 ins2 : Insight),
        ins1.ad_id = ins2.ad_id → ins1.date_start = ins2.date_start →
        upsertRows fetchMeta.rowKey []
            [fetchMeta.assembleRow digest a1 b1 ads1 camps1 ce1 now1 ins1,
             fetchMeta.assembleRow digest a2 b2 ads2 camps2 ce2 now2 ins2] =
          [fetchMeta.assembleRow digest a2 b2 ads2 camps2 ce2 now2 ins2])
    ∧ (∀ r1 r2 : fork.MetricRow, r1.account_id = r2.account_id → r1.date = r2.date →
        upsertRows fork.rowKey [] [r1, r2] = [r2]) := by
  refine ⟨?_, ?_, ?_, ?_⟩
  · intro r1 r2
    rw [upsertRows_pair]
    exact if_congr (by simp [demo.rowKey, Prod.ext_iff]) rfl rfl
  · intro r1 r2
    rw [upsertRows_pair]
    exact if_congr (by simp [monitoring.rowKey, Prod.ext_iff]) rfl rfl
  · intro digest a1 a2 b1 b2 ads1 ads2 camps1 camps2 ce1 ce2 now1 now2 ins1 ins2 h1 h2
    rw [upsertRows_pair, if_pos]
    show fetchMeta.rowKey _ = fetchMeta.rowKey _
    simp only [fetchMeta.rowKey, fetchMeta_assembleRow_id, generate_deterministic_uuid, h1, h2]
  · intro r1 r2 h1 h2
    rw [upsertRows_pair, if_pos]
    simp [fork.rowKey, Prod.ext_iff, h1, h2]

/-- Witness for the amended C1 at concrete inputs: a cross-account
`fetch_meta_ads.py` collision (same ad id and date, accounts `"A1"` vs
`"A2"`) and a same-account `meta_pipeline_fork.py` collision. -/
theorem C1_amended_witness :
    (upsertRows fetchMeta.rowKey []
        [fetchMeta.assembleRow (fun s => s) "A1" "B1" (fun _ => none) (fun _ => none)
            { creative_id := none, headline := none, description := none, cta_type := none,
              thumbnail_url := none, image_url := none } "t1"
            { ad_id := "AD", date_start := "2025-01-01", impressions := 0, clicks := 0,
              spend := 5, frequency := 0, reach := 0, actions := [] },
         fetchMeta.assembleRow (fun s => s) "A2" "B2" (fun _ => none) (fun _ => none)
            { creative_id := none, headline := none, description := none, cta_type := none,
              thumbnail_url := none, image_url := none } "t2"
            { ad_id := "AD", date_start := "2025-01-01", impressions := 0, clicks := 0,
              spend := 7, frequency := 0, reach := 0, actions := [] }] =
        [fetchMeta.assembleRow (fun s => s) "A2" "B2" (fun _ => none) (fun _ => none)
            { creative_id := none, headline := none, description := none, cta_type := none,
              thumbnail_url := none, image_url := none } "t2"
            { ad_id := "AD", date_start := "2025-01-01", impressions := 0, clicks := 0,
              spend := 7, frequency := 0, reach := 0, actions := [] }])
    ∧ (upsertRows fork.rowKey []
        [fork.assembleRow "ACC" "Biz" (fun _ => none) (fun _ => none)
            { ad_id := "AD1", date_start := "2025-01-01", impressions := 0, clicks := 0,
              spend := 5, frequency := 0, reach := 0, actions := [] },
         fork.assembleRow "ACC" "Biz" (fun _ => none) (fun _ => none)
            { ad_id := "AD2", date_start := "2025-01-01", impressions := 0, clicks := 0,
              spend := 7, frequency := 0, reach := 0, actions := [] }] =
        [fork.assembleRow "ACC" "Biz" (fun _ => none) (fun _ => none)
            { ad_id := "AD2", date_start := "2025-01-01", impressions := 0, clicks := 0,
              spend := 7, frequency := 0, reach := 0, actions := [] }]) := by
  exact ⟨C1_amended_conflict_keys.2.2.1 (fun s => s) "A1" "A2" "B1" "B2"
      (fun _ => none) (fun _ => none) (fun _ => none) (fun _ => none)
      { creative_id := none, headline := none, description := none, cta_type := none,
        thumbnail_url := none, image_url := none }
      { creative_id := none, headline := none, description := none, cta_type := none,
        thumbnail_url := none, image_url := none } "t1" "t2"
      { ad_id := "AD", date_start := "2025-01-01", impressions := 0, clicks := 0,
        spend := 5, frequency := 0, reach := 0, actions := [] }
      { ad_id := "AD", date_start := "2025-01-01", impressions := 0, clicks := 0,
        spend := 7, frequency := 0, reach := 0, actions := [] } rfl rfl,
    C1_amended_conflict_keys.2.2.2
      (fork.assembleRow "ACC" "Biz" (fun _ => none) (fun _ => none)
        { ad_id := "AD1", date_start := "2025-01-01", impressions := 0, clicks := 0,
          spend := 5, frequency := 0, reach := 0, actions := [] })
      (fork.assembleRow "ACC" "Biz" (fun _ => none) (fun _ => none)
        { ad_id := "AD2", date_start := "2025-01-01", impressions := 0, clicks := 0,
          spend := 7, frequency := 0, reach := 0, actions := [] }) rfl rfl⟩

/-- C9: the row identifier of the `fetch_meta_ads.py` variant is
`generate_deterministic_uuid(ad_id, date_str)` — a fixed function of the
base string built from `(ad_id, date)` only, with `account_id` nowhere in
its inputs — and under the `on_conflict=["id"]` upsert of that variant, two
rows with equal ad id and date (even from different accounts, with
entirely different metrics and metadata) receive the same identity key and
the later overwrites the earlier. -/
theorem C9_uuid_independent_of_account :
    (∀ (digest : String → String) (act business : String)
       (ads : String → Option Ad) (camps : String → Option CampaignInfo)
       (ce : fetchMeta.CreativeElements) (now : String) (ins : Insight),
        (fetchMeta.assembleRow digest act business ads camps ce now ins).id =
          digest (ins.ad_id ++ "-" ++ ins.date_start))
    ∧ (∀ (digest : String → String) (a1 a2 b1 b2 : String)
         (ads1 ads2 : String → Option Ad) (camps1 camps2 : String → Option CampaignInfo)
         (ce1 ce2 : fetchMeta.CreativeElements) (now1 now2 : String) (ins1 ins2 : Insight),
        ins1.ad_id = ins2.ad_id → ins1.date_start = ins2.date_start →
        (fetchMeta.assembleRow digest a1 b1 ads1 camps1 ce1 now1 ins1).id =
            (fetchMeta.assembleRow digest a2 b2 ads2 camps2 ce2 now2 ins2).id
          ∧ upsertRows fetchMeta.rowKey []
              [fetchMeta.assembleRow digest a1 b1 ads1 camps1 ce1 now1 ins1,
               fetchMeta.assembleRow digest a2 b2 ads2 camps2 ce2 now2 ins2] =
            [fetchMeta.assembleRow digest a2 b2 ads2 camps2 ce2 now2 ins2]) := by
  constructor
  · intro digest act business ads camps ce now ins
    exact fetchMeta_assembleRow_id digest act business ads camps ce now ins
  · intro digest a1 a2 b1 b2 ads1 ads2 camps1 camps2 ce1 ce2 now1 now2 ins1 ins2 h1 h2
    have hid : (fetchMeta.assembleRow digest a1 b1 ads1 camps1 ce1 now1 ins1).id =
        (fetchMeta.assembleRow digest a2 b2 ads2 camps2 ce2 now2 ins2).id := by
      simp only [fetchMeta_assembleRow_id, generate_deterministic_uuid, h1, h2]
    refine ⟨hid, ?_⟩
    rw [upsertRows_pair, if_pos]
    exact hid

/-- Witness for C9 at a concrete input: digest left abstract as the
identity function baked in at `fun s => s`; same ad id `"AD77"` and date,
accounts `"ACC1"` vs `"ACC2"`. -/
theorem C9_uuid_independent_of_account_witness :
    (fetchMeta.assembleRow (fun s => s) "ACC1" "BizOne" (fun _ => none) (fun _ => none)
        { creative_id := none, headline := none, description := none, cta_type := none,
          thumbnail_url := none, image_url := none } "t1"
        { ad_id := "AD77", date_start := "2025-02-02", impressions := 0, clicks := 0,
          spend := 1, frequency := 0, reach := 0, actions := [] }).id =
      (fetchMeta.assembleRow (fun s => s) "ACC2" "BizTwo" (fun _ => none) (fun _ => none)
        { creative_id := none, headline := none, description := none, cta_type := none,
          thumbnail_url := none, image_url := none } "t2"
        { ad_id := "AD77", date_start := "2025-02-02", impressions := 0, clicks := 0,
          spend := 2, frequency := 0, reach := 0, actions := [] }).id := by
  exact (C9_uuid_independent_of_account.2 (fun s => s) "ACC1" "ACC2" "BizOne" "BizTwo"
    (fun _ => none) (fun _ => none) (fun _ => none) (fun _ => none)
    { creative_id := none, headline := none, description := none, cta_type := none,
      thumbnail_url := none, image_url := none }
    { creative_id := none, headline := none, description := none, cta_type := none,
      thumbnail_url := none, image_url := none } "t1" "t2"
    { ad_id := "AD77", date_start := "2025-02-02", impressions := 0, clicks := 0,
      spend := 1, frequency := 0, reach := 0, actions := [] }
    { ad_id := "AD77", date_start := "2025-02-02", impressions := 0, clicks := 0,
      spend := 2, frequency := 0, reach := 0, actions := [] } rfl rfl).1

/-- On a well-formed cursor chain the pagination loop returns the
concatenation of all pages in order. -/
theorem fetch_all_join {α : Type} :
    ∀ pages : List (Page α), goodChain pages = true →
      fetch_all pages = (pages.map Page.data).flatten := by
  intro pages
  induction pages with
  | nil => intro h; simp [fetch_all]
  | cons p rest ih =>
      intro h
      cases rest with
      | nil =>
          have hp : p.hasNext = false := by simpa [goodChain] using h
          simp [fetch_all, hp]
      | cons q rs =>
          have hp : p.hasNext = true ∧ goodChain (q :: rs) = true := by
            simpa [goodChain, Bool.and_eq_true] using h
          have e1 : fetch_all (p :: q :: rs) = p.data ++ fetch_all (q :: rs) := by
            simp [fetch_all, hp.1]
          rw [e1, ih hp.2]
          simp

/-- On a well-formed cursor chain the pagination loop requests every page
exactly once. -/
theorem pagesFetched_length {α : Type} :
    ∀ pages : List (Page α), goodChain pages = true →
      pagesFetched pages = pages.length := by
  intro pages
  induction pages with
  | nil => intro h; simp [pagesFetched]
  | cons p rest ih =>
      intro h
      cases rest with
      | nil =>
          have hp : p.hasNext = false := by simpa [goodChain] using h
          simp [pagesFetched, hp]
      | cons q rs =>
          have hp : p.hasNext = true ∧ goodChain (q :: rs) = true := by
            simpa [goodChain, Bool.and_eq_true] using h
          have e1 : pagesFetched (p :: q :: rs) = 1 + pagesFetched (q :: rs) := by
            simp [pagesFetched, hp.1]
          rw [e1, ih hp.2]
          simp [Nat.add_comm]

/-- C8: over a cursor chain of N pages in which every page but the last
announces a next cursor, the pagination loop of `fetch_ads` /
`fetch_insights` returns exactly the concatenation of all pages in order,
requests each page exactly once, and stops immediately at any page that
returns no next cursor (ignoring whatever would come after). -/
theorem C8_pagination_terminates {α : Type} (pages : List (Page α))
    (h : goodChain pages = true) :
    fetch_all pages = (pages.map Page.data).flatten
    ∧ pagesFetched pages = pages.length
    ∧ (∀ (p : Page α) (rest : List (Page α)), p.hasNext = false →
        fetch_all (p :: rest) = p.data) := by
  refine ⟨fetch_all_join pages h, pagesFetched_length pages h, ?_⟩
  intro p rest hp
  simp [fetch_all, hp]

/-- Witness for C8: the mocked 3-page sequence of 50/50/12 items yields
exactly 112 items in 3 requests. -/
theorem C8_pagination_terminates_witness :
    goodChain [Page.mk (List.replicate 50 0) true, Page.mk (List.replicate 50 0) true,
        Page.mk (List.replicate 12 0) false] = true
    ∧ (fetch_all [Page.mk (List.replicate 50 0) true, Page.mk (List.replicate 50 0) true,
        Page.mk (List.replicate 12 0) false]).length = 112
    ∧ pagesFetched [Page.mk (List.replicate 50 0) true, Page.mk (List.replicate 50 0) true,
        Page.mk (List.replicate 12 0) false] = 3 := by
  have h := C8_pagination_terminates
    [Page.mk (List.replicate 50 0) true, Page.mk (List.replicate 50 0) true,
      Page.mk (List.replicate 12 0) false] (by decide)
  refine ⟨by decide, ?_, ?_⟩
  · rw [h.1]; decide
  · rw [h.2.1]; decide

/-- If every response fails, the `demo.py` retry loop exhausts its fuel
and returns nothing. -/
theorem demo_fetchGo_fail (resp : Nat → HttpResp)
    (hfail : ∀ n body, resp n ≠ HttpResp.ok body) :
    ∀ fuel start, demo.fetchGo resp fuel start = none := by
  intro fuel
  induction fuel with
  | zero => intro start; rfl
  | succ k ih =>
      intro start
      cases hr : resp start with
      | ok body => exact absurd hr (hfail start body)
      | httpErr s b => simp [demo.fetchGo, hr, ih (start + 1)]
      | transportErr m => simp [demo.fetchGo, hr, ih (start + 1)]

/-- If every response fails, the `demo.py` retry loop issues exactly
`fuel` requests. -/
theorem demo_attemptsGo_fail (resp : Nat → HttpResp)
    (hfail : ∀ n body, resp n ≠ HttpResp.ok body) :
    ∀ fuel start, demo.attemptsGo resp fuel start = fuel := by
  intro fuel
  induction fuel with
  | zero => intro start; rfl
  | succ k ih =>
      intro start
      cases hr : resp start with
      | ok body => exact absurd hr (hfail start body)
      | httpErr s b => simp [demo.attemptsGo, hr, ih (start + 1), Nat.add_comm]
      | transportErr m => simp [demo.attemptsGo, hr, ih (start + 1), Nat.add_comm]

/-- If every response fails, the `fetch_meta_ads.py` retry loop (whose own
`except` handler swallows even its own `raise`) exhausts its fuel. -/
theorem fetchMeta_fetchGo_fail (resp : Nat → HttpResp)
    (hfail : ∀ n body, resp n ≠ HttpResp.ok body) :
    ∀ fuel start, fetchMeta.fetchGo resp fuel start = none := by
  intro fuel
  induction fuel with
  | zero => intro start; rfl
  | succ k ih =>
      intro start
      cases hr : resp start with
      | ok body => exact absurd hr (hfail start body)
      | httpErr s b => simp [fetchMeta.fetchGo, hr, ih (start + 1)]
      | transportErr m => simp [fetchMeta.fetchGo, hr, ih (start + 1)]

/-- If every response fails, the `fetch_meta_ads.py` retry loop issues
exactly `fuel` requests. -/
theorem fetchMeta_attemptsGo_fail (resp : Nat → HttpResp)
    (hfail : ∀ n body, resp n ≠ HttpResp.ok body) :
    ∀ fuel start, fetchMeta.attemptsGo resp fuel start = fuel := by
  intro fuel
  induction fuel with
  | zero => intro start; rfl
  | succ k ih =>
      intro start
      cases hr : resp start with
      | ok body => exact absurd hr (hfail start body)
      | httpErr s b => simp [fetchMeta.attemptsGo, hr, ih (start + 1), Nat.add_comm]
      | transportErr m => simp [fetchMeta.attemptsGo, hr, ih (start + 1), Nat.add_comm]

/-- If every response fails, the `meta_pipeline_fork.py` loop ends in a
classified error (an immediate raise, an uncaught transport error, or
retry exhaustion). -/
theorem fork_fetchGo_fail (resp : Nat → HttpResp)
    (hfail : ∀ n body, resp n ≠ HttpResp.ok body) :
    ∀ fuel start, ∃ e, fork.fetchGo resp fuel start = Except.error e := by
  intro fuel
  induction fuel with
  | zero => intro start; exact ⟨fork.FetchErr.maxRetries, rfl⟩
  | succ k ih =>
      intro start
      cases hr : resp start with
      | ok body => exact absurd hr (hfail start body)
      | httpErr s b =>
          by_cases hc : ((s == 400) && strContains (lowerStr b) "too many calls") = true
          · obtain ⟨e, he⟩ := ih (start + 1)
            exact ⟨e, by simp [fork.fetchGo, hr, hc, he]⟩
          · have hcf : ((s == 400) && strContains (lowerStr b) "too many calls") = false := by
              cases hb : ((s == 400) && strContains (lowerStr b) "too many calls") with
              | true => exact absurd hb hc
              | false => rfl
            exact ⟨fork.FetchErr.httpFailure s b, by simp [fork.fetchGo, hr, hcf]⟩
      | transportErr m => exact ⟨fork.FetchErr.transport m, by simp [fork.fetchGo, hr]⟩

/-- The `meta_pipeline_fork.py` loop never issues more requests than its
retry cap, whatever the endpoint answers. -/
theorem fork_attemptsGo_le (resp : Nat → HttpResp) :
    ∀ fuel start, fork.attemptsGo resp fuel start ≤ fuel := by
  intro fuel
  induction fuel with
  | zero => intro start; exact Nat.le_refl 0
  | succ k ih =>
      intro start
      cases hr : resp start with
      | ok body => simp [fork.attemptsGo, hr]
      | httpErr s b =>
          by_cases hc : ((s == 400) && strContains (lowerStr b) "too many calls") = true
          · have := ih (start + 1)
            simp [fork.attemptsGo, hr, hc]
            omega
          · have hcf : ((s == 400) && strContains (lowerStr b) "too many calls") = false := by
              cases hb : ((s == 400) && strContains (lowerStr b) "too many calls") with
              | true => exact absurd hb hc
              | false => rfl
            simp [fork.attemptsGo, hr, hcf]
      | transportErr m => simp [fork.attemptsGo, hr]

/-- C6: against an endpoint that fails on every call (for example one that
always answers HTTP 429), the `fetch_url` of every variant terminates with a
raised error after at most `max_retries = 5` attempts: `demo.py` and
`fetch_meta_ads.py` make exactly 5 attempts and then raise their
max-retries error, `meta_pipeline_fork.py` makes at most 5 attempts and
raises a classified error.  No variant retries indefinitely. -/
theorem C6_retry_cap (resp : Nat → HttpResp)
    (hfail : ∀ n body, resp n ≠ HttpResp.ok body) :
    (demo.fetch_url resp 5 =
        Except.error ("Meta request failed after " ++ toString 5 ++ " attempts")
      ∧ demo.attemptsMade resp 5 = 5)
    ∧ (fetchMeta.fetch_url resp 5 = Except.error "Max retries reached for Meta API call."
      ∧ fetchMeta.attemptsMade resp 5 = 5)
    ∧ ((∃ e, fork.fetch_url resp 5 = Except.error e)
      ∧ fork.attemptsMade resp 5 ≤ 5) := by
  refine ⟨⟨?_, ?_⟩, ⟨?_, ?_⟩, ?_, ?_⟩
  · simp [demo.fetch_url, demo_fetchGo_fail resp hfail 5 0]
  · exact demo_attemptsGo_fail resp hfail 5 0
  · simp [fetchMeta.fetch_url, fetchMeta_fetchGo_fail resp hfail 5 0]
  · exact fetchMeta_attemptsGo_fail resp hfail 5 0
  · exact fork_fetchGo_fail resp hfail 5 0
  · exact fork_attemptsGo_le resp 5 0

/-- Witness for C6: the mock endpoint answering 429 on every call. -/
theorem C6_retry_cap_witness :
    demo.attemptsMade (fun _ => HttpResp.httpErr 429 "Too Many Requests") 5 = 5
    ∧ fetchMeta.attemptsMade (fun _ => HttpResp.httpErr 429 "Too Many Requests") 5 = 5
    ∧ fork.attemptsMade (fun _ => HttpResp.httpErr 429 "Too Many Requests") 5 ≤ 5
    ∧ (∃ e, fork.fetch_url (fun _ => HttpResp.httpErr 429 "Too Many Requests") 5 =
        Except.error e) := by
  have h := C6_retry_cap (fun _ => HttpResp.httpErr 429 "Too Many Requests")
    (fun n body hody => HttpResp.noConfusion hody)
  exact ⟨h.1.2, h.2.1.2, h.2.2.2, h.2.2.1⟩

/-- A `meta_pipeline_fork.py` endpoint that always answers HTTP 400 with a
rate-limit body retries until the cap and then raises the max-retries
error. -/
theorem fork_fetchGo_ratelimited (body : String)
    (hb : strContains (lowerStr body) "too many calls" = true) :
    ∀ fuel start,
      fork.fetchGo (fun _ => HttpResp.httpErr 400 body) fuel start =
          Except.error fork.FetchErr.maxRetries
        ∧ fork.attemptsGo (fun _ => HttpResp.httpErr 400 body) fuel start = fuel := by
  intro fuel
  induction fuel with
  | zero => intro start; exact ⟨rfl, rfl⟩
  | succ k ih =>
      intro start
      refine ⟨?_, ?_⟩
      · simp [fork.fetchGo, hb, (ih (start + 1)).1]
      · simp [fork.attemptsGo, hb, (ih (start + 1)).2, Nat.add_comm]

/-- C7 counterexample: the claim says a 4xx status other than 429 is never
retried.  `demo.py fetch_url` (lines 81-96) treats every non-200 response
alike: against an endpoint answering HTTP 404 on every call it makes all
5 attempts (retrying 4 times) instead of failing permanently after 1. -/
theorem C7_counterexample_404_retried :
    demo.attemptsMade (fun _ => HttpResp.httpErr 404 "Not Found") 5 = 5
    ∧ demo.attemptsMade (fun _ => HttpResp.httpErr 404 "Not Found") 5 ≠ 1 := by
  exact ⟨by decide, by decide⟩

/-- C7 amended: no variant implements the claimed 429/5xx-only retry
policy.  `demo.py` retries EVERY non-200 response (including all 4xx) up
to the cap, losing the response body in its final `RuntimeError`;
`fetch_meta_ads.py` does the same because its blanket `except` swallows
its own immediate `raise`; `meta_pipeline_fork.py` retries only
`status == 400` with `"too many calls"` in the lowercased body — every
OTHER non-200 status (including 429 and 5xx) raises immediately on the
first attempt with an error that does capture the status and body. -/
theorem C7_amended_retry_classification :
    (∀ (status : Nat) (body : String),
        demo.attemptsMade (fun _ => HttpResp.httpErr status body) 5 = 5
        ∧ demo.fetch_url (fun _ => HttpResp.httpErr status body) 5 =
            Except.error ("Meta request failed after " ++ toString 5 ++ " attempts"))
    ∧ (∀ (status : Nat) (body : String),
        fetchMeta.attemptsMade (fun _ => HttpResp.httpErr status body) 5 = 5)
    ∧ (∀ (status : Nat) (body : String),
        ¬(status = 400 ∧ strContains (lowerStr body) "too many calls" = true) →
        fork.fetch_url (fun _ => HttpResp.httpErr status body) 5 =
            Except.error (fork.FetchErr.httpFailure status body)
          ∧ fork.attemptsMade (fun _ => HttpResp.httpErr status body) 5 = 1)
    ∧ (∀ body : String, strContains (lowerStr body) "too many calls" = true →
        fork.fetch_url (fun _ => HttpResp.httpErr 400 body) 5 =
            Except.error fork.FetchErr.maxRetries
          ∧ fork.attemptsMade (fun _ => HttpResp.httpErr 400 body) 5 = 5) := by
  have hfail : ∀ (status : Nat) (body : String) (n : Nat) (j : String),
      (fun _ => HttpResp.httpErr status body) n ≠ HttpResp.ok j :=
    fun _ _ _ _ h => HttpResp.noConfusion h
  refine ⟨?_, ?_, ?_, ?_⟩
  · intro status body
    refine ⟨demo_attemptsGo_fail _ (hfail status body) 5 0, ?_⟩
    simp [demo.fetch_url, demo_fetchGo_fail _ (hfail status body) 5 0]
  · intro status body
    exact fetchMeta_attemptsGo_fail _ (hfail status body) 5 0
  · intro status body hc
    have hcf : ((status == 400) && strContains (lowerStr body) "too many calls") = false := by
      cases hb : ((status == 400) && strContains (lowerStr body) "too many calls") with
      | true =>
          exfalso
          exact hc (by simpa [Bool.and_eq_true, beq_iff_eq] using hb)
      | false => rfl
    exact ⟨by simp [fork.fetch_url, fork.fetchGo, hcf],
      by simp [fork.attemptsMade, fork.attemptsGo, hcf]⟩
  · intro body hb
    exact ⟨(fork_fetchGo_ratelimited body hb 5 0).1, (fork_fetchGo_ratelimited body hb 5 0).2⟩

/-- Witness for the amended C7 at concrete inputs: a permanent 404 for the
fork variant (1 attempt, body captured), the same 404 retried 5 times by
`demo.py` and `fetch_meta_ads.py`, and a rate-limited 400 retried to the
cap by the fork variant. -/
theorem C7_amended_retry_classification_witness :
    demo.attemptsMade (fun _ => HttpResp.httpErr 404 "does not exist") 5 = 5
    ∧ fetchMeta.attemptsMade (fun _ => HttpResp.httpErr 404 "does not exist") 5 = 5
    ∧ fork.fetch_url (fun _ => HttpResp.httpErr 404 "does not exist") 5 =
        Except.error (fork.FetchErr.httpFailure 404 "does not exist")
    ∧ fork.attemptsMade (fun _ => HttpResp.httpErr 404 "does not exist") 5 = 1
    ∧ fork.attemptsMade (fun _ => HttpResp.httpErr 400 "User request limit reached: too many calls") 5 = 5 := by
  have h := C7_amended_retry_classification
  have h404 := h.2.2.1 404 "does not exist" (by decide)
  have h429 := h.2.2.2 "User request limit reached: too many calls" (by decide)
  exact ⟨(h.1 404 "does not exist").1, h.2.1 404 "does not exist", h404.1, h404.2, h429.2⟩

/-- C4 counterexample: the claim says every batch whose whole-batch upsert
fails with a non-structural error falls back to per-row upserts, ending
with 97 rows persisted and 3 dead-lettered for a 100-row batch with 3 bad
rows.  In `fetch_meta_ads.py` (lines 331-345) the per-row fallback runs
only when the error object carries code `PGRST100`; for any other
non-structural batch error (here: an exception without a `code`
attribute) nothing of the batch is persisted and nothing is
dead-lettered. -/
theorem C4_counterexample_no_fallback :
    c4fBatch.length = 100
    ∧ (c4fBatch.filter c4fRowFails).length = 3
    ∧ fetchMeta.processBatch (some { code := none }) c4fRowFails c4fBatch =
        { persisted := 0, deadLettered := [] }
    ∧ (0 : Nat) ≠ 97 := by
  exact ⟨by decide, by decide, by decide, by decide⟩

/-- C4 amended: the claimed fallback holds for the `demo.py` writer: on a
non-structural batch failure it persists exactly the rows that succeed
individually, collects exactly the failing rows, and logs them under the
label `business_batch_{index+1}` (into the timestamped file written by
`log_bad_rows`); a 100-row batch with 3 individually-failing rows ends
with 97 persisted and 3 dead-lettered.  The `fetch_meta_ads.py` writer
diverges: it falls back to per-row upserts only when the batch error has
code `PGRST100`, persists nothing of the batch on any other error, and in
no case dead-letters the still-failing rows (they are only printed). -/
theorem C4_amended_batch_fallback :
    (∀ (rowFails : demo.MetricRow → Bool) (business : String) (batchIndex : Nat)
       (batch : List demo.MetricRow),
        (demo.processBatch (some demo.BatchFailure.dataError) rowFails business batchIndex batch).runAborted = false
        ∧ (demo.processBatch (some demo.BatchFailure.dataError) rowFails business batchIndex batch).persisted =
            (batch.filter (fun r => !(rowFails r))).length
        ∧ (demo.processBatch (some demo.BatchFailure.dataError) rowFails business batchIndex batch).deadLettered =
            batch.filter rowFails
        ∧ (batch.filter rowFails ≠ [] →
            (demo.processBatch (some demo.BatchFailure.dataError) rowFails business batchIndex batch).deadLetterLabel =
              some (business ++ "_batch_" ++ toString (batchIndex + 1)))
        ∧ (batch.length = 100 → (batch.filter rowFails).length = 3 →
            (demo.processBatch (some demo.BatchFailure.dataError) rowFails business batchIndex batch).persisted = 97
            ∧ (demo.processBatch (some demo.BatchFailure.dataError) rowFails business batchIndex batch).deadLettered.length = 3))
    ∧ (∀ (rowFails : fetchMeta.MetricRow → Bool) (batch : List fetchMeta.MetricRow)
         (e : fetchMeta.BatchErr), e.code ≠ some "PGRST100" →
        fetchMeta.processBatch (some e) rowFails batch =
          { persisted := 0, deadLettered := [] })
    ∧ (∀ (rowFails : fetchMeta.MetricRow → Bool) (batch : List fetchMeta.MetricRow)
         (e : fetchMeta.BatchErr),
        (fetchMeta.processBatch (some e) rowFails batch).deadLettered = []) := by
  refine ⟨?_, ?_, ?_⟩
  · intro rowFails business batchIndex batch
    refine ⟨rfl, rfl, rfl, ?_, ?_⟩
    · intro hne
      simp [demo.processBatch, List.isEmpty_iff, hne]
    · intro h100 h3
      have hsplit := List.length_eq_length_filter_add (l := batch) rowFails
      constructor
      · show (batch.filter (fun r => !(rowFails r))).length = 97
        omega
      · show (batch.filter rowFails).length = 3
        exact h3
  · intro rowFails batch e he
    have hcf : (e.code == some "PGRST100") = false := by
      cases hb : (e.code == some "PGRST100") with
      | true => exact absurd (by simpa using hb) he
      | false => rfl
    simp [fetchMeta.processBatch, hcf]
  · intro rowFails batch e
    by_cases hc : (e.code == some "PGRST100") = true
    · simp [fetchMeta.processBatch, hc]
    · have hcf : (e.code == some "PGRST100") = false := by
        cases hb : (e.code == some "PGRST100") with
        | true => exact absurd hb hc
        | false => rfl
      simp [fetchMeta.processBatch, hcf]

/-- Witness for the amended C4: the 100-row `demo.py` batch with 3
individually-failing rows ends with 97 persisted, the 3 bad rows
dead-lettered under label `Biz_batch_1`; and a concrete non-PGRST100
`fetch_meta_ads.py` batch error persists nothing. -/
theorem C4_amended_batch_fallback_witness :
    (demo.processBatch (some demo.BatchFailure.dataError) c4RowFails "Biz" 0 c4Batch).persisted = 97
    ∧ (demo.processBatch (some demo.BatchFailure.dataError) c4RowFails "Biz" 0 c4Batch).deadLettered.length = 3
    ∧ (demo.processBatch (some demo.BatchFailure.dataError) c4RowFails "Biz" 0 c4Batch).deadLetterLabel =
        some "Biz_batch_1"
    ∧ fetchMeta.processBatch (some { code := none }) c4fRowFails c4fBatch =
        { persisted := 0, deadLettered := [] } := by
  have h := C4_amended_batch_fallback
  have h1 := h.1 c4RowFails "Biz" 0 c4Batch
  have h97 := h1.2.2.2.2 (by decide) (by decide)
  have hlab := h1.2.2.2.1 (by decide)
  refine ⟨h97.1, h97.2, ?_, h.2.1 c4fRowFails c4fBatch { code := none } (by decide)⟩
  rw [hlab]
  decide

/-- C5 counterexample: the claim says any uncaught exception while
processing an account moves it to SKIPPED and the run proceeds.  In
`demo.py main` (lines 263-269) there is no handler around
`process_account`: with two accounts where the first raises an uncaught
(non-structural) error, the run aborts on the spot — the first account
gets no terminal status and the second is never processed. -/
theorem C5_counterexample_demo_abort :
    demo.runAccounts
        (fun a => if a.2 == "1" then demo.AcctOutcome.uncaughtError
                  else demo.AcctOutcome.completed)
        [("Gym A", "1"), ("Gym B", "2")] =
      demo.RunResult.aborted [] ("Gym A", "1")
    ∧ demo.AcctOutcome.uncaughtError ≠ demo.AcctOutcome.structuralExit := by
  exact ⟨by decide, by decide⟩

/-- C5 amended: the claimed isolation holds for `meta_ads_monitoring.py`
(and `fetch_meta_ads.py`), whose `main` wraps each account in a blanket
`except`: every account of the list receives a terminal DONE or SKIPPED
status and the loop always reaches the end.  In `demo.py`, whose `main`
has no such handler, the run only finishes when no account raises beyond
`process_account`; an exception escaping `process_account` (or the
structural `sys.exit`) aborts the run immediately, leaving the remaining
accounts unprocessed. -/
theorem C5_amended_isolation :
    (∀ (raises : String × String → Bool) (accounts : List (String × String)),
        (monitoring.runAccounts raises accounts).map Prod.fst = accounts
        ∧ ∀ p ∈ monitoring.runAccounts raises accounts,
            p.2 = AcctStatus.done ∨ p.2 = AcctStatus.skipped)
    ∧ (∀ (outcome : String × String → demo.AcctOutcome)
         (accounts : List (String × String)),
        (∀ a ∈ accounts, outcome a = demo.AcctOutcome.completed
          ∨ outcome a = demo.AcctOutcome.fetchFailed) →
        ∃ s, demo.runAccounts outcome accounts = demo.RunResult.finished s)
    ∧ (∀ (outcome : String × String → demo.AcctOutcome) (a : String × String)
         (rest : List (String × String)),
        outcome a = demo.AcctOutcome.uncaughtError →
        demo.runAccounts outcome (a :: rest) = demo.RunResult.aborted [] a) := by
  refine ⟨?_, ?_, ?_⟩
  · intro raises accounts
    constructor
    · induction accounts with
      | nil => rfl
      | cons a rest ih => simpa [monitoring.runAccounts] using ih
    · intro p hp
      simp only [monitoring.runAccounts, List.mem_map] at hp
      obtain ⟨a, _, rfl⟩ := hp
      by_cases h : raises a = true
      · right; simp [h]
      · left; simp [h]
  · intro outcome accounts
    induction accounts with
    | nil => intro h; exact ⟨[], rfl⟩
    | cons a rest ih =>
        intro h
        obtain ⟨s, hs⟩ := ih (fun b hb => h b (List.mem_cons_of_mem a hb))
        rcases h a (List.mem_cons_self a rest) with hc | hc
        · exact ⟨(a, AcctStatus.done) :: s, by simp [demo.runAccounts, hc, hs]⟩
        · exact ⟨(a, AcctStatus.skipped) :: s, by simp [demo.runAccounts, hc, hs]⟩
  · intro outcome a rest h
    simp [demo.runAccounts, h]

/-- Witness for the amended C5 at concrete inputs: three accounts with the
second one raising — the monitoring orchestrator gives every account a
terminal status; a single-account `demo.py` run finishes when nothing
escapes, and aborts on an uncaught error. -/
theorem C5_amended_isolation_witness :
    (monitoring.runAccounts (fun a => a.2 == "2")
        [("Gym A", "1"), ("Gym B", "2"), ("Gym C", "3")]).map Prod.fst =
      [("Gym A", "1"), ("Gym B", "2"), ("Gym C", "3")]
    ∧ monitoring.runAccounts (fun a => a.2 == "2")
        [("Gym A", "1"), ("Gym B", "2"), ("Gym C", "3")] =
      [(("Gym A", "1"), AcctStatus.done), (("Gym B", "2"), AcctStatus.skipped),
        (("Gym C", "3"), AcctStatus.done)]
    ∧ demo.runAccounts (fun _ => demo.AcctOutcome.uncaughtError) [("Gym A", "1")] =
        demo.RunResult.aborted [] ("Gym A", "1") := by
  have h := C5_amended_isolation
  exact ⟨(h.1 (fun a => a.2 == "2")
      [("Gym A", "1"), ("Gym B", "2"), ("Gym C", "3")]).1,
    by decide,
    h.2.2 (fun _ => demo.AcctOutcome.uncaughtError) ("Gym A", "1") [] rfl⟩
